import Mathlib

/-!
Shallow embedding of the signal decision engine of the
`autotrader-planilhas-python` repository.

Python floats are modelled as exact rationals (`ℚ`); `round(x, d)` is
modelled as decimal rounding to `d` places with ties to even, matching
Python's `round`.  Where Python reads the wall clock (`now_brt()`), the
clock value is passed as an explicit argument.  Division in `ℚ` totalises
`x / 0 = 0`; source lines where the divisor can be zero are noted at the
definition.
-/

namespace Autotrader

/-- Rounding of a rational to the nearest integer, ties to even
(Python `round` semantics on exact values). -/
def rnd_half_even (y : ℚ) : ℤ :=
  let f := ⌊y⌋
  if y - f < 1/2 then f
  else if 1/2 < y - f then f + 1
  else if 2 ∣ f then f else f + 1

/-- `round(y, d)` from Python, on exact rationals: round `y * 10^d` to the
nearest integer (ties to even) and scale back. -/
def round_to (d : ℕ) (y : ℚ) : ℚ :=
  (rnd_half_even (y * 10 ^ d) : ℚ) / 10 ^ d

theorem rnd_half_even_ge (n : ℤ) (y : ℚ) (h : (n : ℚ) ≤ y) :
    n ≤ rnd_half_even y := by
  have hf : n ≤ ⌊y⌋ := Int.le_floor.mpr h
  unfold rnd_half_even
  dsimp only
  split
  · exact hf
  · split
    · omega
    · split <;> omega

theorem rnd_half_even_le (n : ℤ) (y : ℚ) (h : y ≤ (n : ℚ)) :
    rnd_half_even y ≤ n := by
  have hf : ⌊y⌋ ≤ n := by
    have := Int.floor_le_floor h
    simpa using this
  unfold rnd_half_even
  dsimp only
  rcases lt_or_eq_of_le hf with hlt | heq
  · split
    · omega
    · split
      · omega
      · split <;> omega
  · -- ⌊y⌋ = n, so y = n exactly and the first branch fires
    have hy : y = (n : ℚ) := by
      have h1 : (n : ℚ) ≤ y := by
        rw [← heq]; exact Int.floor_le y
      linarith
    have hfr : y - (⌊y⌋ : ℚ) < 1/2 := by
      rw [heq, hy]; norm_num
    split
    · omega
    · rename_i hc
      exact absurd hfr hc

theorem round_to_ge (d : ℕ) (n : ℤ) (y : ℚ) (h : (n : ℚ) ≤ y) :
    (n : ℚ) ≤ round_to d y := by
  have hp : (0 : ℚ) < 10 ^ d := by positivity
  have h1 : ((n * 10 ^ d : ℤ) : ℚ) ≤ y * 10 ^ d := by
    push_cast
    exact mul_le_mul_of_nonneg_right h (le_of_lt hp)
  have h2 := rnd_half_even_ge (n * 10 ^ d) (y * 10 ^ d) h1
  unfold round_to
  rw [le_div_iff₀ hp]
  calc (n : ℚ) * 10 ^ d = ((n * 10 ^ d : ℤ) : ℚ) := by push_cast; ring
    _ ≤ (rnd_half_even (y * 10 ^ d) : ℚ) := by exact_mod_cast h2

theorem round_to_le (d : ℕ) (n : ℤ) (y : ℚ) (h : y ≤ (n : ℚ)) :
    round_to d y ≤ (n : ℚ) := by
  have hp : (0 : ℚ) < 10 ^ d := by positivity
  have h1 : y * 10 ^ d ≤ ((n * 10 ^ d : ℤ) : ℚ) := by
    push_cast
    exact mul_le_mul_of_nonneg_right h (le_of_lt hp)
  have h2 := rnd_half_even_le (n * 10 ^ d) (y * 10 ^ d) h1
  unfold round_to
  rw [div_le_iff₀ hp]
  calc (rnd_half_even (y * 10 ^ d) : ℚ)
      ≤ ((n * 10 ^ d : ℤ) : ℚ) := by exact_mod_cast h2
    _ = (n : ℚ) * 10 ^ d := by push_cast; ring

/-- `config.py`: `PRICE_DECIMALS = 3`. -/
def PRICE_DECIMALS : ℕ := 3

/-- `config.py`: `PCT_DECIMALS = 2`. -/
def PCT_DECIMALS : ℕ := 2

/-- Trade direction as produced by `analise_sinal.py` / `worker_entrada.py`
(the strings `"LONG"` / `"SHORT"`; no third value exists there). -/
inductive Sinal where
  | LONG
  | SHORT
deriving DecidableEq, Repr

/-- The two mode strings: `modo.lower() == "swing"` selects the swing
branch, anything else the posicional branch. -/
inductive Modo where
  | swing
  | posicional
deriving DecidableEq, Repr

/-- The last-bar indicator values consumed by the deciders
(`calculadora.calcular_indicadores` output / the `last_*` locals of
`worker_entrada.calcular_sinal_para_df`). -/
structure Indicadores where
  preco : ℚ
  ema_fast : ℚ
  ema_slow : ℚ
  atr : ℚ
  adx : ℚ
deriving DecidableEq, Repr

namespace AnaliseSinal

/-- `analise_sinal.py` line 36: `MIN_GANHO = 3.0`. -/
def MIN_GANHO : ℚ := 3

/-- `analise_sinal.py` line 37: `MIN_ASSERT = 65.0`. -/
def MIN_ASSERT : ℚ := 65

/-- `analise_sinal.py` line 40: `MAX_GANHO = 30.0`. -/
def MAX_GANHO : ℚ := 30

/-- `analise_sinal.py` line 41: `MIN_ASSERT_CLAMP = 60.0`. -/
def MIN_ASSERT_CLAMP : ℚ := 60

/-- `analise_sinal.py` line 42: `MAX_ASSERT_CLAMP = 90.0`. -/
def MAX_ASSERT_CLAMP : ℚ := 90

/-- Lines 67-71: LONG iff the fast EMA is strictly above the slow one,
otherwise SHORT. -/
def sinal_de (ema_fast ema_slow : ℚ) : Sinal :=
  if ema_fast > ema_slow then .LONG else .SHORT

/-- Lines 73-75: ATR as percent of price (0 when price is not positive),
clamped to `[0.5, 15.0]`. -/
def atr_pct_de (preco atr : ℚ) : ℚ :=
  let atr_pct : ℚ := if preco > 0 then atr / preco * 100 else 0
  max (1/2) (min atr_pct 15)

/-- Lines 78-83: mode multiplier (swing 1.2, posicional 2.0). -/
def mult_de (modo : Modo) : ℚ :=
  match modo with
  | .swing => 12/10
  | .posicional => 2

/-- Lines 78-83: mode base assertiveness (swing 68.0, posicional 72.0). -/
def base_assert_de (modo : Modo) : ℚ :=
  match modo with
  | .swing => 68
  | .posicional => 72

/-- Lines 85-86: raw gain = `atr_pct * mult`, clamped to
`[MIN_GANHO, MAX_GANHO]`. -/
def ganho_raw_de (modo : Modo) (atr_pct : ℚ) : ℚ :=
  max MIN_GANHO (min (atr_pct * mult_de modo) MAX_GANHO)

/-- Lines 89-92: target above (LONG) or below (SHORT) price by the raw
gain percentage. -/
def alvo_de (sinal : Sinal) (preco ganho_pct_raw : ℚ) : ℚ :=
  match sinal with
  | .LONG => preco * (1 + ganho_pct_raw / 100)
  | .SHORT => preco * (1 - ganho_pct_raw / 100)

/-- Lines 95-98: gain recomputed from the target (division by zero when
`preco = 0`: Python raises `ZeroDivisionError` there; `ℚ` yields 0, and
that input is then filtered to `none`, so no record is produced either
way). -/
def ganho_real_de (sinal : Sinal) (preco alvo : ℚ) : ℚ :=
  match sinal with
  | .LONG => (alvo - preco) / preco * 100
  | .SHORT => (preco - alvo) / preco * 100

/-- Line 103: normalized trend strength `clamp((adx - 10) / 40, 0, 1)`. -/
def adx_norm_de (adx : ℚ) : ℚ :=
  max 0 (min 1 ((adx - 10) / 40))

/-- The published record of `analisar_sinal` (the returned dict). -/
structure Resultado where
  sinal : Sinal
  alvo : ℚ
  ganho_pct : ℚ
  assert_pct : ℚ
deriving DecidableEq, Repr

/-- `analise_sinal.analisar_sinal` (lines 49-134): decide LONG/SHORT,
project the target, score assertiveness, filter, round.  Returns `none`
exactly where Python returns `None`. -/
def analisar_sinal (ind : Indicadores) (modo : Modo) : Option Resultado :=
  let sinal := sinal_de ind.ema_fast ind.ema_slow
  let atr_pct := atr_pct_de ind.preco ind.atr
  let ganho_pct_raw := ganho_raw_de modo atr_pct
  let alvo := alvo_de sinal ind.preco ganho_pct_raw
  let ganho_pct_real := ganho_real_de sinal ind.preco alvo
  let adx_norm := adx_norm_de ind.adx
  let align_score : ℚ :=
    if (sinal = Sinal.LONG ∧ ind.ema_fast > ind.ema_slow)
        ∨ (sinal = Sinal.SHORT ∧ ind.ema_fast < ind.ema_slow) then 1 else 0
  let assert_pct := base_assert_de modo + 20 * adx_norm + 10 * align_score
  let assert_pct := max MIN_ASSERT_CLAMP (min MAX_ASSERT_CLAMP assert_pct)
  if ganho_pct_real < MIN_GANHO ∨ assert_pct < MIN_ASSERT then none
  else some
    { sinal := sinal
      alvo := round_to PRICE_DECIMALS alvo
      ganho_pct := round_to PCT_DECIMALS ganho_pct_real
      assert_pct := round_to PCT_DECIMALS assert_pct }

end AnaliseSinal

namespace WorkerEntrada

/-- `worker_entrada.py` line 89: `MIN_GANHO = 3.0`. -/
def MIN_GANHO : ℚ := 3

/-- `worker_entrada.py` line 90: `MIN_ASSERT = 65.0`. -/
def MIN_ASSERT : ℚ := 65

/-- The assembly-time clock strings (`now_brt().strftime` of lines
291-293), modelled as an explicit input: `data` = `"%Y-%m-%d"`, `hora` =
`"%H:%M"`. -/
structure Carimbo where
  data : String
  hora : String
deriving DecidableEq, Repr

/-- The `SinalEntrada` dataclass (lines 120-129). -/
structure SinalEntrada where
  par : String
  sinal : Sinal
  preco : ℚ
  alvo : ℚ
  ganho_pct : ℚ
  assert_pct : ℚ
  data : String
  hora : String
deriving DecidableEq, Repr

/-- `worker_entrada.calcular_sinal_para_df` (lines 198-304), from the
last-bar indicator values onward.  The indicator extraction itself
(lines 211-224, the `ta` library) happens upstream; `nbars` is
`df.shape[0]`, `ind` holds the `last_*` locals, and `agora` is the
wall-clock value read at line 291.  The `math.isfinite` guard of line 226
is vacuous over `ℚ` (every rational is finite).  Line 237 divides by
`last_close` unguarded; `ℚ` yields 0 there where Python would raise. -/
def calcular_sinal_para_df (coin : String) (nbars : ℕ) (ind : Indicadores)
    (modo : Modo) (agora : Carimbo) : Option SinalEntrada :=
  if nbars < 60 then none
  else
  let sinal : Sinal := if ind.ema_fast > ind.ema_slow then .LONG else .SHORT
  let atr_pct := ind.atr / ind.preco * 100
  let atr_pct := max (1/2) (min atr_pct 15)
  let mult : ℚ := match modo with | .swing => 12/10 | .posicional => 2
  let ganho_pct_raw := max MIN_GANHO (min (atr_pct * mult) 30)
  let alvo :=
    match sinal with
    | .LONG => ind.preco * (1 + ganho_pct_raw / 100)
    | .SHORT => ind.preco * (1 - ganho_pct_raw / 100)
  let ganho_pct_real :=
    match sinal with
    | .LONG => (alvo - ind.preco) / ind.preco * 100
    | .SHORT => (ind.preco - alvo) / ind.preco * 100
  let adx_norm := max 0 (min 1 ((ind.adx - 10) / 40))
  let align_score : ℚ :=
    if (sinal = Sinal.LONG ∧ ind.ema_fast > ind.ema_slow)
        ∨ (sinal = Sinal.SHORT ∧ ind.ema_fast < ind.ema_slow) then 1 else 0
  let assert_pct := 55 + 20 * adx_norm + 10 * align_score
  let assert_pct := max 60 (min 90 assert_pct)
  if ganho_pct_real < MIN_GANHO ∨ assert_pct < MIN_ASSERT then none
  else some
    { par := coin
      sinal := sinal
      preco := round_to PRICE_DECIMALS ind.preco
      alvo := round_to PRICE_DECIMALS alvo
      ganho_pct := round_to PCT_DECIMALS ganho_pct_real
      assert_pct := round_to PCT_DECIMALS assert_pct
      data := agora.data
      hora := agora.hora }

/-- The timeless part of a `SinalEntrada` (everything but `data`/`hora`). -/
def sem_carimbo (s : SinalEntrada) : String × Sinal × ℚ × ℚ × ℚ × ℚ :=
  (s.par, s.sinal, s.preco, s.alvo, s.ganho_pct, s.assert_pct)

end WorkerEntrada

namespace Calc

/-- `calc.py` line 16: `ADX_MIN = 20.0`. -/
def ADX_MIN : ℚ := 20

/-- `calc.py` line 17: `MIN_EXPECTED_PROFIT_PCT = 3.0`. -/
def MIN_EXPECTED_PROFIT_PCT : ℚ := 3

/-- `calc.py` line 18: `MIN_ASSERTIVIDADE = 65.0`. -/
def MIN_ASSERTIVIDADE : ℚ := 65

/-- The three direction values of `calc.filtros_direcao`
(`"LONG"`, `"SHORT"`, `"NAO_ENTRAR"`; the published label `"NÃO ENTRAR"`
is its record form). -/
inductive Side where
  | LONG
  | SHORT
  | NAO_ENTRAR
deriving DecidableEq, Repr

/-- The last row of the indicator DataFrame consumed by
`decidir_sinal` (columns `ema_fast, ema_slow, +di, -di, adx, close,
atr`). -/
structure Row where
  ema_fast : ℚ
  ema_slow : ℚ
  plus_di : ℚ
  minus_di : ℚ
  adx : ℚ
  close : ℚ
  atr : ℚ
deriving DecidableEq, Repr

/-- `calc.filtros_direcao` (lines 52-59). -/
def filtros_direcao (row : Row) : Side :=
  if row.adx < ADX_MIN then .NAO_ENTRAR
  else if row.ema_fast > row.ema_slow ∧ row.plus_di > row.minus_di then .LONG
  else if row.ema_fast < row.ema_slow ∧ row.plus_di < row.minus_di then .SHORT
  else .NAO_ENTRAR

/-- `calc.alvo_basico` (lines 68-74). -/
def alvo_basico (entry : ℚ) (side : Side) : ℚ :=
  match side with
  | .LONG => entry * (1 + MIN_EXPECTED_PROFIT_PCT / 100)
  | .SHORT => entry * (1 - MIN_EXPECTED_PROFIT_PCT / 100)
  | .NAO_ENTRAR => entry

/-- `calc.assertividade_placeholder` (lines 76-78). -/
def assertividade_placeholder : ℚ := 70

/-- The `SITUACAO` strings of `decidir_sinal`. -/
inductive Situacao where
  | fora_dos_filtros
  | reprovado_por_filtros
  | apto
deriving DecidableEq, Repr

/-- The record returned by `decidir_sinal`. -/
structure Decisao where
  SIDE : Side
  ENTRADA : ℚ
  ALVO : ℚ
  PNL_PCT : ℚ
  ASSERTIVIDADE_PCT : ℚ
  SITUACAO : Situacao
deriving DecidableEq, Repr

/-- `calc.decidir_sinal` (lines 80-117) on the last indicator row.  A
record is returned on every path; line 97's division by `entry` is
unguarded (at `entry = 0` Python raises, `ℚ` yields 0). -/
def decidir_sinal (last : Row) : Decisao :=
  let side := filtros_direcao last
  let entry := last.close
  if side = Side.NAO_ENTRAR then
    { SIDE := .NAO_ENTRAR
      ENTRADA := round_to 3 entry
      ALVO := round_to 3 entry
      PNL_PCT := 0
      ASSERTIVIDADE_PCT := 0
      SITUACAO := .fora_dos_filtros }
  else
    let alvo := alvo_basico entry side
    let pnl_pct :=
      if side = Side.LONG then (alvo / entry - 1) * 100
      else (1 - alvo / entry) * 100
    let assertiv := assertividade_placeholder
    if pnl_pct < MIN_EXPECTED_PROFIT_PCT ∨ assertiv < MIN_ASSERTIVIDADE then
      { SIDE := .NAO_ENTRAR
        ENTRADA := round_to 3 entry
        ALVO := round_to 3 alvo
        PNL_PCT := round_to 2 pnl_pct
        ASSERTIVIDADE_PCT := round_to 2 assertiv
        SITUACAO := .reprovado_por_filtros }
    else
      { SIDE := side
        ENTRADA := round_to 3 entry
        ALVO := round_to 3 alvo
        PNL_PCT := round_to 2 pnl_pct
        ASSERTIVIDADE_PCT := round_to 2 assertiv
        SITUACAO := .apto }

end Calc

namespace PriceStream

/-- `price_stream.recalc_gain_for_signal` (lines 77-98): live gain
recomputation from the current price and the stored target.  The `sinal`
field of `entrada.json` is `"LONG"`, `"SHORT"` or the no-entry label. -/
def recalc_gain_for_signal (preco_atual alvo : ℚ) (sinal : Calc.Side)
    (ganho_original : ℚ) : ℚ :=
  if alvo ≤ 0 ∨ preco_atual ≤ 0 then ganho_original
  else
    match sinal with
    | .LONG => (alvo / preco_atual - 1) * 100
    | .SHORT => (preco_atual / alvo - 1) * 100
    | .NAO_ENTRAR => ganho_original

end PriceStream

namespace Calculadora

/-- One OHLCV bar of the input DataFrame. -/
structure Candle where
  open_price : ℚ
  high : ℚ
  low : ℚ
  close : ℚ
  volume : ℚ
deriving DecidableEq, Repr

/-- Modelled from the spec: the `ta` library's EMA (not part of the
repository) — exponential smoothing with factor `k = 2/(period+1)`,
seeded by the simple average of the first `period` values; returns the
last value of the series. -/
def ema_last (period : ℕ) (xs : List ℚ) : ℚ :=
  let seed := (xs.take period).sum / period
  let k : ℚ := 2 / (period + 1)
  (xs.drop period).foldl (fun e v => v * k + e * (1 - k)) seed

/-- Per-bar true range over the previous close:
`max(high - low, |high - prev_close|, |low - prev_close|)`. -/
def true_range (prev cur : Candle) : ℚ :=
  max (cur.high - cur.low)
    (max |cur.high - prev.close| |cur.low - prev.close|)

/-- Consecutive (previous, current) bar pairs of a series. -/
def bar_pairs (df : List Candle) : List (Candle × Candle) :=
  df.zip df.tail

/-- Modelled from the spec: ATR (from the `ta` library, not part of the
repository) — the rolling arithmetic mean of the true range over the
last `n` bars. -/
def atr_last (n : ℕ) (df : List Candle) : ℚ :=
  let trs := (bar_pairs df).map fun pc => true_range pc.1 pc.2
  ((trs.drop (trs.length - n)).sum) / n

/-- Positive directional movement of a bar pair. -/
def plus_dm (prev cur : Candle) : ℚ :=
  let up := cur.high - prev.high
  let dn := prev.low - cur.low
  if up > dn ∧ up > 0 then up else 0

/-- Negative directional movement of a bar pair. -/
def minus_dm (prev cur : Candle) : ℚ :=
  let up := cur.high - prev.high
  let dn := prev.low - cur.low
  if dn > up ∧ dn > 0 then dn else 0

/-- Wilder smoothing continued from a seed: each step is
`(previous * (n-1) + value) / n`. -/
def wilder_from (n : ℕ) (s : ℚ) : List ℚ → List ℚ
  | [] => []
  | v :: rest =>
    let s2 := (s * (n - 1) + v) / n
    s2 :: wilder_from n s2 rest

/-- Wilder-smoothed series: seeded by the simple average of the first `n`
values, then smoothed over the rest. -/
def wilder_series (n : ℕ) (xs : List ℚ) : List ℚ :=
  let seed := (xs.take n).sum / n
  seed :: wilder_from n seed (xs.drop n)

/-- Modelled from the spec: ADX (from the `ta` library, not part of the
repository) — the standard directional-movement index over `n` bars:
Wilder-smoothed ±DM and true range, directional indices, DX, and a final
Wilder smoothing of DX; last value. -/
def adx_last (n : ℕ) (df : List Candle) : ℚ :=
  let pairs := bar_pairs df
  let sp := wilder_series n (pairs.map fun pc => plus_dm pc.1 pc.2)
  let sm := wilder_series n (pairs.map fun pc => minus_dm pc.1 pc.2)
  let st := wilder_series n (pairs.map fun pc => true_range pc.1 pc.2)
  let di : ℚ → ℚ → ℚ := fun a t => if t = 0 then 0 else 100 * a / t
  let dxs := (sp.zip (sm.zip st)).map fun x =>
    let dp := di x.1 x.2.2
    let dm := di x.2.1 x.2.2
    if dp + dm = 0 then 0 else 100 * |dp - dm| / (dp + dm)
  (wilder_series n dxs).getLastD 0

/-- `calculadora.calcular_indicadores` (lines 33-85): rejects a series
shorter than `max(janela_ema_lenta, janela_atr, janela_adx) + 5`
(returning `None`), otherwise packages the last values of close, both
EMAs, ATR and ADX.  The non-finiteness guard of line 75 is vacuous
over `ℚ`.  Python defaults: `(9, 21, 14, 14)`. -/
def calcular_indicadores (df : List Candle)
    (janela_ema_rapida janela_ema_lenta janela_atr janela_adx : ℕ) :
    Option Indicadores :=
  if df.length < max janela_ema_lenta (max janela_atr janela_adx) + 5 then
    none
  else
    let close := df.map Candle.close
    some
      { preco := close.getLastD 0
        ema_fast := ema_last janela_ema_rapida close
        ema_slow := ema_last janela_ema_lenta close
        atr := atr_last janela_atr df
        adx := adx_last janela_adx df }

end Calculadora

/-! ## Shared lemmas -/

/-- The two-valued classifier: LONG exactly on a strict upcross,
SHORT otherwise (including exact equality). -/
theorem sinal_de_spec (f s : ℚ) :
    ((if f > s then Sinal.LONG else Sinal.SHORT) = Sinal.LONG ↔ s < f) ∧
    ((if f > s then Sinal.LONG else Sinal.SHORT) = Sinal.SHORT ↔ f ≤ s) := by
  by_cases h : f > s
  · simp [h, not_le.mpr h]
  · simp [h, not_lt.mp h]

/-- Recomputing the gain from the projected target returns the raw gain
exactly, for any nonzero price. -/
theorem ganho_real_alvo (s : Sinal) (p g : ℚ) (hp : p ≠ 0) :
    AnaliseSinal.ganho_real_de s p (AnaliseSinal.alvo_de s p g) = g := by
  cases s <;>
    simp only [AnaliseSinal.ganho_real_de, AnaliseSinal.alvo_de] <;>
    field_simp <;> ring

/-- The clamped relative volatility is between 0.5 and 15. -/
theorem atr_pct_de_bounds (p a : ℚ) :
    1/2 ≤ AnaliseSinal.atr_pct_de p a ∧ AnaliseSinal.atr_pct_de p a ≤ 15 := by
  unfold AnaliseSinal.atr_pct_de
  constructor
  · exact le_max_left _ _
  · exact max_le (by norm_num) (min_le_right _ _)

/-- The clamped raw gain is between `MIN_GANHO` and `MAX_GANHO`. -/
theorem ganho_raw_de_bounds (modo : Modo) (x : ℚ) :
    AnaliseSinal.MIN_GANHO ≤ AnaliseSinal.ganho_raw_de modo x ∧
    AnaliseSinal.ganho_raw_de modo x ≤ AnaliseSinal.MAX_GANHO := by
  unfold AnaliseSinal.ganho_raw_de AnaliseSinal.MIN_GANHO AnaliseSinal.MAX_GANHO
  constructor
  · exact le_max_left _ _
  · exact max_le (by norm_num) (min_le_right _ _)

/-- Any record returned by `analisar_sinal` carries the two-valued
direction of its EMAs. -/
theorem analisar_sinal_some (ind : Indicadores) (modo : Modo)
    (r : AnaliseSinal.Resultado)
    (h : AnaliseSinal.analisar_sinal ind modo = some r) :
    r.sinal = (if ind.ema_fast > ind.ema_slow then Sinal.LONG else Sinal.SHORT) := by
  simp only [AnaliseSinal.analisar_sinal] at h
  repeat' split at h
  all_goals
    first
      | exact Option.noConfusion h
      | (rw [Option.some.injEq] at h; subst h; rfl)

/-- Any record returned by `calcular_sinal_para_df` carries the two-valued
direction of its EMAs. -/
theorem calcular_sinal_para_df_some (coin : String) (n : ℕ)
    (ind : Indicadores) (modo : Modo) (ag : WorkerEntrada.Carimbo)
    (s : WorkerEntrada.SinalEntrada)
    (h : WorkerEntrada.calcular_sinal_para_df coin n ind modo ag = some s) :
    s.sinal = (if ind.ema_fast > ind.ema_slow then Sinal.LONG else Sinal.SHORT) := by
  simp only [WorkerEntrada.calcular_sinal_para_df] at h
  repeat' split at h
  all_goals
    first
      | exact Option.noConfusion h
      | (rw [Option.some.injEq] at h; subst h;
         split <;> first | rfl | contradiction)

/-- Rounding to two decimals preserves the 3% floor. -/
theorem round_to2_ge_3 (y : ℚ) (h : 3 ≤ y) : (3 : ℚ) ≤ round_to 2 y := by
  have := round_to_ge 2 3 y (by exact_mod_cast h)
  exact_mod_cast this

/-- Rounding to two decimals preserves the lower clamp 60. -/
theorem round_to2_ge_60 (y : ℚ) (h : 60 ≤ y) : (60 : ℚ) ≤ round_to 2 y := by
  have := round_to_ge 2 60 y (by exact_mod_cast h)
  exact_mod_cast this

/-- Rounding to two decimals preserves the upper clamp 90. -/
theorem round_to2_le_90 (y : ℚ) (h : y ≤ 90) : round_to 2 y ≤ (90 : ℚ) := by
  have := round_to_le 2 90 y (by exact_mod_cast h)
  exact_mod_cast this

/-! ## Claims -/

/-- C1 (counterexample): with `ema_fast = ema_slow = 100` exactly (price
100, atr 10, adx 50), `analisar_sinal` publishes direction SHORT — not a
"no entry"/NONE outcome as the claim requires. -/
theorem c1_equality_publishes_short :
    (AnaliseSinal.analisar_sinal ⟨100, 100, 100, 10, 50⟩ Modo.swing).map
      (fun r => r.sinal) = some Sinal.SHORT := by
  simp only [AnaliseSinal.analisar_sinal, AnaliseSinal.sinal_de,
    AnaliseSinal.atr_pct_de, AnaliseSinal.ganho_raw_de, AnaliseSinal.mult_de,
    AnaliseSinal.base_assert_de, AnaliseSinal.alvo_de,
    AnaliseSinal.ganho_real_de, AnaliseSinal.adx_norm_de, round_to,
    rnd_half_even, AnaliseSinal.MIN_GANHO, AnaliseSinal.MAX_GANHO,
    AnaliseSinal.MIN_ASSERT, AnaliseSinal.MIN_ASSERT_CLAMP,
    AnaliseSinal.MAX_ASSERT_CLAMP, PRICE_DECIMALS, PCT_DECIMALS]
  norm_num

/-- C1 (amended): the classifier of `analisar_sinal` and
`calcular_sinal_para_df` is two-valued: every published record has
direction LONG exactly when `ema_fast > ema_slow` and SHORT exactly when
`ema_fast ≤ ema_slow`; exact equality is published as SHORT, and no NONE
direction exists in these deciders. -/
theorem c1_direction_two_valued :
    (∀ ind modo r, AnaliseSinal.analisar_sinal ind modo = some r →
      ((r.sinal = Sinal.LONG ↔ ind.ema_slow < ind.ema_fast) ∧
       (r.sinal = Sinal.SHORT ↔ ind.ema_fast ≤ ind.ema_slow))) ∧
    (∀ coin n ind modo ag s,
      WorkerEntrada.calcular_sinal_para_df coin n ind modo ag = some s →
      ((s.sinal = Sinal.LONG ↔ ind.ema_slow < ind.ema_fast) ∧
       (s.sinal = Sinal.SHORT ↔ ind.ema_fast ≤ ind.ema_slow))) := by
  constructor
  · intro ind modo r h
    rw [analisar_sinal_some ind modo r h]
    exact sinal_de_spec _ _
  · intro coin n ind modo ag s h
    rw [calcular_sinal_para_df_some coin n ind modo ag s h]
    exact sinal_de_spec _ _

/-- C1 (witness): the amended direction rule instantiated on Scenario A's
indicators, where `ema_fast = 105 > ema_slow = 100` gives LONG. -/
theorem c1_direction_two_valued_witness :
    ({ sinal := Sinal.LONG, alvo := 103, ganho_pct := 3, assert_pct := 88 :
        AnaliseSinal.Resultado }).sinal = Sinal.LONG ↔
      (100 : ℚ) < 105 :=
  (c1_direction_two_valued.1 ⟨100, 105, 100, 2, 30⟩ Modo.swing
    { sinal := Sinal.LONG, alvo := 103, ganho_pct := 3, assert_pct := 88 }
    (by
      simp only [AnaliseSinal.analisar_sinal, AnaliseSinal.sinal_de,
        AnaliseSinal.atr_pct_de, AnaliseSinal.ganho_raw_de,
        AnaliseSinal.mult_de, AnaliseSinal.base_assert_de,
        AnaliseSinal.alvo_de, AnaliseSinal.ganho_real_de,
        AnaliseSinal.adx_norm_de, round_to, rnd_half_even,
        AnaliseSinal.MIN_GANHO, AnaliseSinal.MAX_GANHO,
        AnaliseSinal.MIN_ASSERT, AnaliseSinal.MIN_ASSERT_CLAMP,
        AnaliseSinal.MAX_ASSERT_CLAMP, PRICE_DECIMALS, PCT_DECIMALS]
      norm_num)).1

/-- C2 (counterexample): an evaluation that fails the confidence filter
(`ema_fast = ema_slow = 100`, adx 10, 200 bars, swing) makes
`calcular_sinal_para_df` return `None`: the pair IS omitted from the
output, contradicting "the pair is never omitted". -/
theorem c2_filtered_pair_omitted :
    WorkerEntrada.calcular_sinal_para_df ("BTC") 200 ⟨100, 100, 100, 2, 10⟩
      Modo.swing ⟨"2025-11-21", "12:10"⟩ = none := by
  simp only [WorkerEntrada.calcular_sinal_para_df, WorkerEntrada.MIN_GANHO,
    WorkerEntrada.MIN_ASSERT, round_to, rnd_half_even, PRICE_DECIMALS,
    PCT_DECIMALS]
  norm_num

/-- C2 (amended): only `calc.decidir_sinal` keeps a filtered pair in the
output — a row rejected by the direction filter still yields a record
with the no-entry label and the numeric fields present; `worker_entrada`'s
`calcular_sinal_para_df` instead returns `None` (omits the pair) when its
confidence filter fails, e.g. whenever the EMAs tie and `adx ≤ 10` on a
series of at least 60 bars. -/
theorem c2_no_entry_policy :
    (∀ row : Calc.Row, Calc.filtros_direcao row = Calc.Side.NAO_ENTRAR →
      Calc.decidir_sinal row =
        { SIDE := Calc.Side.NAO_ENTRAR
          ENTRADA := round_to 3 row.close
          ALVO := round_to 3 row.close
          PNL_PCT := 0
          ASSERTIVIDADE_PCT := 0
          SITUACAO := Calc.Situacao.fora_dos_filtros }) ∧
    (∀ coin n ind modo ag, ¬ n < 60 → ind.ema_fast = ind.ema_slow →
      ind.adx ≤ 10 →
      WorkerEntrada.calcular_sinal_para_df coin n ind modo ag = none) := by
  constructor
  · intro row h
    simp [Calc.decidir_sinal, h]
  · intro coin n ind modo ag hn hfs hadx
    have hnorm : (0 : ℚ) ⊔ 1 ⊓ ((ind.adx - 10) / 40) = 0 := by
      have h1 : (ind.adx - 10) / 40 ≤ 0 :=
        div_nonpos_of_nonpos_of_nonneg (by linarith) (by norm_num)
      rw [inf_eq_right.mpr (le_trans h1 zero_le_one), sup_eq_left.mpr h1]
    simp only [WorkerEntrada.calcular_sinal_para_df, hfs, gt_iff_lt,
      lt_self_iff_false, if_false, and_false, or_self, hnorm]
    rw [if_neg hn]
    split
    · rfl
    · rename_i hc
      push_neg at hc
      exfalso
      have h65 := hc.2
      simp only [WorkerEntrada.MIN_ASSERT] at h65
      rw [max_def, min_def] at h65
      norm_num at h65

/-- C2 (witness): the no-entry record for a concrete rejected row
(adx 10 < 20), and the omitted pair for a concrete filtered worker
evaluation. -/
theorem c2_no_entry_policy_witness :
    Calc.decidir_sinal ⟨105, 100, 2, 1, 10, 100, 2⟩ =
      { SIDE := Calc.Side.NAO_ENTRAR
        ENTRADA := round_to 3 100
        ALVO := round_to 3 100
        PNL_PCT := 0
        ASSERTIVIDADE_PCT := 0
        SITUACAO := Calc.Situacao.fora_dos_filtros } ∧
    WorkerEntrada.calcular_sinal_para_df ("ETH") 200 ⟨50, 70, 70, 2, 8⟩
      Modo.posicional ⟨"2025-11-21", "12:10"⟩ = none :=
  ⟨c2_no_entry_policy.1 ⟨105, 100, 2, 1, 10, 100, 2⟩
      (by simp [Calc.filtros_direcao, Calc.ADX_MIN]; norm_num),
   c2_no_entry_policy.2 ("ETH") 200 ⟨50, 70, 70, 2, 8⟩ Modo.posicional
      ⟨"2025-11-21", "12:10"⟩ (by norm_num) rfl (by norm_num)⟩

/-- C3: Scenario A — price 100, ema_fast 105, ema_slow 100, atr 2,
adx 30, swing profile (multiplier 1.2, min 3.0, max 30.0, base 68, band
[60, 90]) publishes LONG with target 103.0, gain 3.0 and confidence 88;
the intermediate values are atr_pct = 2.0 (clamp unchanged), raw gain
2.4 clamped up to 3.0 and trend strength 0.5. -/
theorem c3_scenario_a :
    AnaliseSinal.analisar_sinal ⟨100, 105, 100, 2, 30⟩ Modo.swing =
      some { sinal := Sinal.LONG, alvo := 103, ganho_pct := 3,
             assert_pct := 88 } ∧
    AnaliseSinal.atr_pct_de 100 2 = 2 ∧
    AnaliseSinal.ganho_raw_de Modo.swing 2 = 3 ∧
    AnaliseSinal.adx_norm_de 30 = 1/2 := by
  refine ⟨?_, ?_, ?_, ?_⟩ <;>
    simp only [AnaliseSinal.analisar_sinal, AnaliseSinal.sinal_de,
      AnaliseSinal.atr_pct_de, AnaliseSinal.ganho_raw_de,
      AnaliseSinal.mult_de, AnaliseSinal.base_assert_de,
      AnaliseSinal.alvo_de, AnaliseSinal.ganho_real_de,
      AnaliseSinal.adx_norm_de, round_to, rnd_half_even,
      AnaliseSinal.MIN_GANHO, AnaliseSinal.MAX_GANHO,
      AnaliseSinal.MIN_ASSERT, AnaliseSinal.MIN_ASSERT_CLAMP,
      AnaliseSinal.MAX_ASSERT_CLAMP, PRICE_DECIMALS, PCT_DECIMALS] <;>
    norm_num

/-- C4: every record that the deciders publish with a directional entry
reports a gain of at least the 3.0 floor: any `analisar_sinal` output has
`ganho_pct ≥ MIN_GANHO`, and any `decidir_sinal` output whose side is
LONG or SHORT has `PNL_PCT ≥ MIN_EXPECTED_PROFIT_PCT`. -/
theorem c4_gain_floor :
    (∀ ind modo r, AnaliseSinal.analisar_sinal ind modo = some r →
      AnaliseSinal.MIN_GANHO ≤ r.ganho_pct) ∧
    (∀ row, (Calc.decidir_sinal row).SIDE ≠ Calc.Side.NAO_ENTRAR →
      Calc.MIN_EXPECTED_PROFIT_PCT ≤ (Calc.decidir_sinal row).PNL_PCT) := by
  constructor
  · intro ind modo r h
    simp only [AnaliseSinal.analisar_sinal] at h
    repeat' split at h
    all_goals
      first
        | exact Option.noConfusion h
        | (rw [Option.some.injEq] at h
           subst h
           have hfil := ‹¬(_ ∨ _)›
           push_neg at hfil
           exact round_to2_ge_3 _
             (by simpa [AnaliseSinal.MIN_GANHO] using hfil.1))
  · intro row h
    have hLN : (Calc.Side.LONG = Calc.Side.NAO_ENTRAR) = False := by simp
    have hSN : (Calc.Side.SHORT = Calc.Side.NAO_ENTRAR) = False := by simp
    have hLL : (Calc.Side.LONG = Calc.Side.LONG) = True := by simp
    have hSL : (Calc.Side.SHORT = Calc.Side.LONG) = False := by simp
    cases hside : Calc.filtros_direcao row with
    | NAO_ENTRAR => simp [Calc.decidir_sinal, hside] at h
    | LONG =>
      simp only [Calc.decidir_sinal, hside, hLN, hLL, if_false, if_true] at h ⊢
      split at h
      · exact absurd rfl h
      · rename_i hc
        rw [if_neg hc]
        push_neg at hc
        exact round_to2_ge_3 _
          (by simpa [Calc.MIN_EXPECTED_PROFIT_PCT] using hc.1)
    | SHORT =>
      simp only [Calc.decidir_sinal, hside, hSN, hSL, if_false, if_true] at h ⊢
      split at h
      · exact absurd rfl h
      · rename_i hc
        rw [if_neg hc]
        push_neg at hc
        exact round_to2_ge_3 _
          (by simpa [Calc.MIN_EXPECTED_PROFIT_PCT] using hc.1)

/-- C4 (witness): Scenario A's published record reports gain 3 ≥ 3, and a
concrete approved `decidir_sinal` row reports PNL 3 ≥ 3. -/
theorem c4_gain_floor_witness :
    AnaliseSinal.MIN_GANHO ≤
      ({ sinal := Sinal.LONG, alvo := 103, ganho_pct := 3,
         assert_pct := 88 : AnaliseSinal.Resultado }).ganho_pct ∧
    Calc.MIN_EXPECTED_PROFIT_PCT ≤
      (Calc.decidir_sinal ⟨105, 100, 2, 1, 30, 100, 2⟩).PNL_PCT :=
  ⟨c4_gain_floor.1 ⟨100, 105, 100, 2, 30⟩ Modo.swing
      { sinal := Sinal.LONG, alvo := 103, ganho_pct := 3, assert_pct := 88 }
      (by
        simp only [AnaliseSinal.analisar_sinal, AnaliseSinal.sinal_de,
          AnaliseSinal.atr_pct_de, AnaliseSinal.ganho_raw_de,
          AnaliseSinal.mult_de, AnaliseSinal.base_assert_de,
          AnaliseSinal.alvo_de, AnaliseSinal.ganho_real_de,
          AnaliseSinal.adx_norm_de, round_to, rnd_half_even,
          AnaliseSinal.MIN_GANHO, AnaliseSinal.MAX_GANHO,
          AnaliseSinal.MIN_ASSERT, AnaliseSinal.MIN_ASSERT_CLAMP,
          AnaliseSinal.MAX_ASSERT_CLAMP, PRICE_DECIMALS, PCT_DECIMALS]
        norm_num),
   c4_gain_floor.2 ⟨105, 100, 2, 1, 30, 100, 2⟩
      (by
        norm_num [Calc.decidir_sinal, Calc.filtros_direcao, Calc.ADX_MIN,
          Calc.alvo_basico, Calc.assertividade_placeholder,
          Calc.MIN_EXPECTED_PROFIT_PCT, Calc.MIN_ASSERTIVIDADE]
        decide)⟩

/-- C5 (counterexample): a row rejected by the direction filter (adx 10)
is published by `decidir_sinal` with confidence 0, which lies outside the
configured clamp band `[60, 90]` — so "confidence always within the band"
and "NONE ⇒ confidence 0" cannot both hold. -/
theorem c5_none_confidence_outside_band :
    (Calc.decidir_sinal ⟨105, 100, 2, 1, 10, 100, 2⟩).ASSERTIVIDADE_PCT = 0 ∧
    ¬ ((60 : ℚ) ≤
        (Calc.decidir_sinal ⟨105, 100, 2, 1, 10, 100, 2⟩).ASSERTIVIDADE_PCT) := by
  constructor <;>
    · simp only [Calc.decidir_sinal, Calc.filtros_direcao, Calc.ADX_MIN]
      norm_num

/-- C5 (amended): every record published by `analisar_sinal` has its
confidence inside the clamp band `[60, 90]` inclusive, and directional
records of `decidir_sinal` report the constant 70, inside the band; but a
no-entry (NONE) outcome of `decidir_sinal` reports confidence 0, outside
the band. -/
theorem c5_confidence_band :
    (∀ ind modo r, AnaliseSinal.analisar_sinal ind modo = some r →
      AnaliseSinal.MIN_ASSERT_CLAMP ≤ r.assert_pct ∧
      r.assert_pct ≤ AnaliseSinal.MAX_ASSERT_CLAMP) ∧
    (∀ row, Calc.filtros_direcao row = Calc.Side.NAO_ENTRAR →
      (Calc.decidir_sinal row).ASSERTIVIDADE_PCT = 0) ∧
    (∀ row, (Calc.decidir_sinal row).SIDE ≠ Calc.Side.NAO_ENTRAR →
      (Calc.decidir_sinal row).ASSERTIVIDADE_PCT = 70) := by
  refine ⟨?_, ?_, ?_⟩
  · intro ind modo r h
    simp only [AnaliseSinal.analisar_sinal] at h
    repeat' split at h
    all_goals
      first
        | exact Option.noConfusion h
        | (rw [Option.some.injEq] at h
           subst h
           constructor
           · exact round_to2_ge_60 _ (le_max_left _ _)
           · exact round_to2_le_90 _
               (max_le (by norm_num [AnaliseSinal.MIN_ASSERT_CLAMP])
                 (min_le_left _ _)))
  · intro row h
    simp [Calc.decidir_sinal, h]
  · intro row h
    have hLN : (Calc.Side.LONG = Calc.Side.NAO_ENTRAR) = False := by simp
    have hSN : (Calc.Side.SHORT = Calc.Side.NAO_ENTRAR) = False := by simp
    have hLL : (Calc.Side.LONG = Calc.Side.LONG) = True := by simp
    have hSL : (Calc.Side.SHORT = Calc.Side.LONG) = False := by simp
    cases hside : Calc.filtros_direcao row with
    | NAO_ENTRAR => simp [Calc.decidir_sinal, hside] at h
    | LONG =>
      simp only [Calc.decidir_sinal, hside, hLN, hLL, if_false, if_true] at h ⊢
      split at h
      · exact absurd rfl h
      · rename_i hc
        rw [if_neg hc]
        show round_to 2 Calc.assertividade_placeholder = 70
        simp only [Calc.assertividade_placeholder, round_to, rnd_half_even]
        norm_num
    | SHORT =>
      simp only [Calc.decidir_sinal, hside, hSN, hSL, if_false, if_true] at h ⊢
      split at h
      · exact absurd rfl h
      · rename_i hc
        rw [if_neg hc]
        show round_to 2 Calc.assertividade_placeholder = 70
        simp only [Calc.assertividade_placeholder, round_to, rnd_half_even]
        norm_num

/-- C5 (witness): the band bounds on Scenario A's published record
(confidence 88), the zero confidence of a concrete rejected row, and the
constant 70 of a concrete approved row. -/
theorem c5_confidence_band_witness :
    (AnaliseSinal.MIN_ASSERT_CLAMP ≤
        ({ sinal := Sinal.LONG, alvo := 103, ganho_pct := 3,
           assert_pct := 88 : AnaliseSinal.Resultado }).assert_pct ∧
      ({ sinal := Sinal.LONG, alvo := 103, ganho_pct := 3,
         assert_pct := 88 : AnaliseSinal.Resultado }).assert_pct ≤
        AnaliseSinal.MAX_ASSERT_CLAMP) ∧
    (Calc.decidir_sinal ⟨50, 49, 1, 2, 10, 100, 2⟩).ASSERTIVIDADE_PCT = 0 ∧
    (Calc.decidir_sinal ⟨105, 100, 2, 1, 30, 100, 2⟩).ASSERTIVIDADE_PCT = 70 :=
  ⟨c5_confidence_band.1 ⟨100, 105, 100, 2, 30⟩ Modo.swing
      { sinal := Sinal.LONG, alvo := 103, ganho_pct := 3, assert_pct := 88 }
      (by
        simp only [AnaliseSinal.analisar_sinal, AnaliseSinal.sinal_de,
          AnaliseSinal.atr_pct_de, AnaliseSinal.ganho_raw_de,
          AnaliseSinal.mult_de, AnaliseSinal.base_assert_de,
          AnaliseSinal.alvo_de, AnaliseSinal.ganho_real_de,
          AnaliseSinal.adx_norm_de, round_to, rnd_half_even,
          AnaliseSinal.MIN_GANHO, AnaliseSinal.MAX_GANHO,
          AnaliseSinal.MIN_ASSERT, AnaliseSinal.MIN_ASSERT_CLAMP,
          AnaliseSinal.MAX_ASSERT_CLAMP, PRICE_DECIMALS, PCT_DECIMALS]
        norm_num),
   c5_confidence_band.2.1 ⟨50, 49, 1, 2, 10, 100, 2⟩
      (by simp [Calc.filtros_direcao, Calc.ADX_MIN]; norm_num),
   c5_confidence_band.2.2 ⟨105, 100, 2, 1, 30, 100, 2⟩
      (by
        norm_num [Calc.decidir_sinal, Calc.filtros_direcao, Calc.ADX_MIN,
          Calc.alvo_basico, Calc.assertividade_placeholder,
          Calc.MIN_EXPECTED_PROFIT_PCT, Calc.MIN_ASSERTIVIDADE]
        decide)⟩

/-- C6 (counterexample): for price 100, target 97 (a SHORT), the live
recomputation of `price_stream` yields `(100/97 - 1)*100 = 300/97`, not
the `(1 - 97/100)*100 = 3` that the deciders use — the SHORT gain formula
is NOT the same everywhere. -/
theorem c6_short_gain_divergence :
    PriceStream.recalc_gain_for_signal 100 97 Calc.Side.SHORT 0 ≠
      (1 - 97/100) * 100 := by
  norm_num [PriceStream.recalc_gain_for_signal]

/-- C6 (amended): `analisar_sinal` computes the LONG gain as
`(target/price - 1)*100` and the SHORT gain as `(1 - target/price)*100`;
`price_stream.recalc_gain_for_signal` agrees on LONG but computes the
SHORT gain as `(price/target - 1)*100`, which coincides with
`(1 - target/price)*100` exactly when `target = price`. -/
theorem c6_gain_formulas :
    ∀ preco alvo g : ℚ, 0 < preco → 0 < alvo →
      AnaliseSinal.ganho_real_de Sinal.LONG preco alvo =
        (alvo / preco - 1) * 100 ∧
      AnaliseSinal.ganho_real_de Sinal.SHORT preco alvo =
        (1 - alvo / preco) * 100 ∧
      PriceStream.recalc_gain_for_signal preco alvo Calc.Side.LONG g =
        (alvo / preco - 1) * 100 ∧
      PriceStream.recalc_gain_for_signal preco alvo Calc.Side.SHORT g =
        (preco / alvo - 1) * 100 ∧
      (PriceStream.recalc_gain_for_signal preco alvo Calc.Side.SHORT g =
          (1 - alvo / preco) * 100 ↔ alvo = preco) := by
  intro preco alvo g hp ha
  have hpe : preco ≠ 0 := ne_of_gt hp
  have hae : alvo ≠ 0 := ne_of_gt ha
  have hcond : ¬ (alvo ≤ 0 ∨ preco ≤ 0) := by push_neg; exact ⟨ha, hp⟩
  refine ⟨?_, ?_, ?_, ?_, ?_⟩
  · simp only [AnaliseSinal.ganho_real_de]
    field_simp
  · simp only [AnaliseSinal.ganho_real_de]
    field_simp
  · simp only [PriceStream.recalc_gain_for_signal]
    rw [if_neg hcond]
  · simp only [PriceStream.recalc_gain_for_signal]
    rw [if_neg hcond]
  · simp only [PriceStream.recalc_gain_for_signal]
    rw [if_neg hcond]
    constructor
    · intro h
      field_simp at h
      rcases h with h | h
      · linarith
      · nlinarith [h, sq_nonneg (preco - alvo), mul_pos hp ha]
    · intro h
      subst h
      simp [div_self hpe]

/-- C6 (witness): the amended formula facts instantiated at price 100,
target 97. -/
theorem c6_gain_formulas_witness :
    AnaliseSinal.ganho_real_de Sinal.SHORT 100 97 = (1 - 97/100) * 100 ∧
    PriceStream.recalc_gain_for_signal 100 97 Calc.Side.SHORT 0 =
      (100/97 - 1) * 100 :=
  ⟨(c6_gain_formulas 100 97 0 (by norm_num) (by norm_num)).2.1,
   (c6_gain_formulas 100 97 0 (by norm_num) (by norm_num)).2.2.2.1⟩

/-- C7: a candle series shorter than
`max(slow_len, atr_len, adx_len) + 5` is rejected by
`calcular_indicadores` (returns `None`); and any series shorter than that
margin is likewise rejected by `calcular_sinal_para_df` (whose own guard
is the stricter `< 60`). -/
theorem c7_insufficient_data :
    (∀ df j1 j2 j3 j4, df.length < max j2 (max j3 j4) + 5 →
      Calculadora.calcular_indicadores df j1 j2 j3 j4 = none) ∧
    (∀ coin n ind modo ag, n < max 21 (max 14 14) + 5 →
      WorkerEntrada.calcular_sinal_para_df coin n ind modo ag = none) := by
  constructor
  · intro df j1 j2 j3 j4 h
    simp only [Calculadora.calcular_indicadores]
    rw [if_pos h]
  · intro coin n ind modo ag h
    norm_num at h
    simp only [WorkerEntrada.calcular_sinal_para_df]
    rw [if_pos (by omega : n < 60)]

/-- C7 (witness): a 21-bar series with slow_len 21, atr_len 14, adx_len
14 is rejected by `calcular_indicadores`, and a 21-bar evaluation is
rejected by `calcular_sinal_para_df`. -/
theorem c7_insufficient_data_witness :
    Calculadora.calcular_indicadores
      (List.replicate 21 ⟨1, 2, 1, 1, 1⟩) 9 21 14 14 = none ∧
    WorkerEntrada.calcular_sinal_para_df ("BTC") 21 ⟨100, 105, 100, 2, 30⟩
      Modo.swing ⟨"2025-11-21", "12:10"⟩ = none :=
  ⟨c7_insufficient_data.1 (List.replicate 21 ⟨1, 2, 1, 1, 1⟩) 9 21 14 14
      (by simp),
   c7_insufficient_data.2 ("BTC") 21 ⟨100, 105, 100, 2, 30⟩ Modo.swing
      ⟨"2025-11-21", "12:10"⟩ (by norm_num)⟩

/-- C8 (counterexample): with entry price −100 (and aligned EMAs, adx
50), `analisar_sinal` raises no error and publishes a LONG signal with a
negative target — there is no `InvalidPriceOrVolatility` outcome and a
non-positive price does not cause the pair to be skipped. -/
theorem c8_negative_price_publishes :
    AnaliseSinal.analisar_sinal ⟨-100, 2, 1, 1, 50⟩ Modo.swing =
      some { sinal := Sinal.LONG, alvo := -103, ganho_pct := 3,
             assert_pct := 90 } := by
  simp only [AnaliseSinal.analisar_sinal, AnaliseSinal.sinal_de,
    AnaliseSinal.atr_pct_de, AnaliseSinal.ganho_raw_de,
    AnaliseSinal.mult_de, AnaliseSinal.base_assert_de,
    AnaliseSinal.alvo_de, AnaliseSinal.ganho_real_de,
    AnaliseSinal.adx_norm_de, round_to, rnd_half_even,
    AnaliseSinal.MIN_GANHO, AnaliseSinal.MAX_GANHO,
    AnaliseSinal.MIN_ASSERT, AnaliseSinal.MIN_ASSERT_CLAMP,
    AnaliseSinal.MAX_ASSERT_CLAMP, PRICE_DECIMALS, PCT_DECIMALS]
  norm_num

/-- C8 (amended): `analisar_sinal` performs no price/volatility validity
check: the relative volatility is floored at 0.5 (so a post-clamp
volatility ≤ 0 is impossible), and an evaluation with a negative entry
price is not rejected — whenever the EMAs point up and `adx ≥ 30`, a
record is still published. -/
theorem c8_no_validity_check :
    (∀ preco atr : ℚ, 1/2 ≤ AnaliseSinal.atr_pct_de preco atr) ∧
    (∀ ind modo, ind.preco < 0 → ind.ema_slow < ind.ema_fast →
      30 ≤ ind.adx → (AnaliseSinal.analisar_sinal ind modo).isSome) := by
  constructor
  · intro p a
    exact le_max_left _ _
  · intro ind modo hpreco hema hadx
    have hs : AnaliseSinal.sinal_de ind.ema_fast ind.ema_slow = Sinal.LONG := by
      simp [AnaliseSinal.sinal_de, hema]
    have hn : 1/2 ≤ AnaliseSinal.adx_norm_de ind.adx := by
      unfold AnaliseSinal.adx_norm_de
      exact le_trans (le_min (by norm_num) (by linarith)) (le_max_right _ _)
    have hb : 68 ≤ AnaliseSinal.base_assert_de modo := by
      cases modo <;> norm_num [AnaliseSinal.base_assert_de]
    simp only [AnaliseSinal.analisar_sinal, hs]
    rw [if_pos (show (True ∧ ind.ema_fast > ind.ema_slow) ∨
        (Sinal.LONG = Sinal.SHORT ∧ ind.ema_fast < ind.ema_slow) from
        Or.inl ⟨trivial, hema⟩)]
    rw [if_neg]
    · simp
    · push_neg
      constructor
      · rw [ganho_real_alvo _ _ _ (ne_of_lt hpreco)]
        exact (ganho_raw_de_bounds modo _).1
      · simp only [AnaliseSinal.MIN_ASSERT, AnaliseSinal.MIN_ASSERT_CLAMP,
          AnaliseSinal.MAX_ASSERT_CLAMP]
        refine le_trans (le_min (by norm_num) ?_) (le_max_right _ _)
        linarith

/-- C8 (witness): the volatility floor at a degenerate input, and the
published signal at the concrete negative-price input. -/
theorem c8_no_validity_check_witness :
    1/2 ≤ AnaliseSinal.atr_pct_de 0 0 ∧
    (AnaliseSinal.analisar_sinal ⟨-100, 2, 1, 1, 50⟩ Modo.swing).isSome :=
  ⟨c8_no_validity_check.1 0 0,
   c8_no_validity_check.2 ⟨-100, 2, 1, 1, 50⟩ Modo.swing (by norm_num)
     (by norm_num) (by norm_num)⟩

/-- C9 (counterexample): two runs on the same indicators and
configuration but at different wall-clock instants produce records that
are NOT byte-identical — the `data` field differs — so the published
record is not a function of candle series and configuration alone. -/
theorem c9_records_differ_across_runs :
    WorkerEntrada.calcular_sinal_para_df ("BTC") 200 ⟨100, 105, 100, 2, 30⟩
        Modo.swing ⟨"2025-11-21", "12:10"⟩ ≠
      WorkerEntrada.calcular_sinal_para_df ("BTC") 200 ⟨100, 105, 100, 2, 30⟩
        Modo.swing ⟨"2025-11-22", "12:10"⟩ := by
  have e1 : WorkerEntrada.calcular_sinal_para_df ("BTC") 200
      ⟨100, 105, 100, 2, 30⟩ Modo.swing ⟨"2025-11-21", "12:10"⟩ =
      some ⟨"BTC", Sinal.LONG, 100, 103, 3, 75, "2025-11-21", "12:10"⟩ := by
    simp only [WorkerEntrada.calcular_sinal_para_df,
      WorkerEntrada.MIN_GANHO, WorkerEntrada.MIN_ASSERT, round_to,
      rnd_half_even, PRICE_DECIMALS, PCT_DECIMALS]
    norm_num
  have e2 : WorkerEntrada.calcular_sinal_para_df ("BTC") 200
      ⟨100, 105, 100, 2, 30⟩ Modo.swing ⟨"2025-11-22", "12:10"⟩ =
      some ⟨"BTC", Sinal.LONG, 100, 103, 3, 75, "2025-11-22", "12:10"⟩ := by
    simp only [WorkerEntrada.calcular_sinal_para_df,
      WorkerEntrada.MIN_GANHO, WorkerEntrada.MIN_ASSERT, round_to,
      rnd_half_even, PRICE_DECIMALS, PCT_DECIMALS]
    norm_num
  rw [e1, e2]
  simp only [ne_eq, Option.some.injEq, WorkerEntrada.SinalEntrada.mk.injEq]
  intro hfields
  exact absurd hfields.2.2.2.2.2.2.1 (by decide)

/-- C9 (amended): the computation is deterministic in everything except
the assembly timestamp: for a fixed coin, series length, indicator values
and mode, two runs at arbitrary clock values agree on every published
field other than `data`/`hora` (and agree on whether a record is
published at all). -/
theorem c9_deterministic_modulo_timestamp :
    ∀ coin n ind modo ag1 ag2,
      (WorkerEntrada.calcular_sinal_para_df coin n ind modo ag1).map
          WorkerEntrada.sem_carimbo =
        (WorkerEntrada.calcular_sinal_para_df coin n ind modo ag2).map
          WorkerEntrada.sem_carimbo := by
  intro coin n ind modo ag1 ag2
  simp only [WorkerEntrada.calcular_sinal_para_df]
  repeat' split
  all_goals rfl

/-- C10: inside `analisar_sinal`, for every positive price the gain
recomputed from the projected target round-trips exactly to the clamped
raw gain, that value always lies in `[MIN_GANHO, MAX_GANHO]` = [3, 30],
and the (unrounded) target differs from the price by exactly that
percentage in the direction of the trade. -/
theorem c10_target_gain_roundtrip :
    ∀ (ind : Indicadores) (modo : Modo), 0 < ind.preco →
      AnaliseSinal.ganho_real_de (AnaliseSinal.sinal_de ind.ema_fast ind.ema_slow)
          ind.preco
          (AnaliseSinal.alvo_de (AnaliseSinal.sinal_de ind.ema_fast ind.ema_slow)
            ind.preco
            (AnaliseSinal.ganho_raw_de modo
              (AnaliseSinal.atr_pct_de ind.preco ind.atr))) =
        AnaliseSinal.ganho_raw_de modo
          (AnaliseSinal.atr_pct_de ind.preco ind.atr) ∧
      AnaliseSinal.MIN_GANHO ≤
        AnaliseSinal.ganho_raw_de modo
          (AnaliseSinal.atr_pct_de ind.preco ind.atr) ∧
      AnaliseSinal.ganho_raw_de modo
          (AnaliseSinal.atr_pct_de ind.preco ind.atr) ≤
        AnaliseSinal.MAX_GANHO ∧
      (∀ g : ℚ,
        (AnaliseSinal.alvo_de Sinal.LONG ind.preco g - ind.preco) * 100 =
          g * ind.preco ∧
        (ind.preco - AnaliseSinal.alvo_de Sinal.SHORT ind.preco g) * 100 =
          g * ind.preco) := by
  intro ind modo hp
  refine ⟨ganho_real_alvo _ _ _ (ne_of_gt hp),
    (ganho_raw_de_bounds modo _).1, (ganho_raw_de_bounds modo _).2, ?_⟩
  intro g
  constructor <;> (simp only [AnaliseSinal.alvo_de]; ring)

/-- C10 (witness): the round-trip facts at Scenario A's input
(price 100, where the clamped raw gain is 3). -/
theorem c10_target_gain_roundtrip_witness :
    AnaliseSinal.ganho_real_de (AnaliseSinal.sinal_de 105 100) 100
        (AnaliseSinal.alvo_de (AnaliseSinal.sinal_de 105 100) 100
          (AnaliseSinal.ganho_raw_de Modo.swing
            (AnaliseSinal.atr_pct_de 100 2))) =
      AnaliseSinal.ganho_raw_de Modo.swing (AnaliseSinal.atr_pct_de 100 2) ∧
    AnaliseSinal.MIN_GANHO ≤
      AnaliseSinal.ganho_raw_de Modo.swing (AnaliseSinal.atr_pct_de 100 2) ∧
    AnaliseSinal.ganho_raw_de Modo.swing (AnaliseSinal.atr_pct_de 100 2) ≤
      AnaliseSinal.MAX_GANHO ∧
    (∀ g : ℚ,
      (AnaliseSinal.alvo_de Sinal.LONG 100 g - 100) * 100 = g * 100 ∧
      (100 - AnaliseSinal.alvo_de Sinal.SHORT 100 g) * 100 = g * 100) :=
  c10_target_gain_roundtrip ⟨100, 105, 100, 2, 30⟩ Modo.swing (by norm_num)

end Autotrader
